/-
Verification of the ContextOfTheCode telemetry pipeline.

Shallow embedding of the parts of the repository the checked properties
concern:
  * the collector metric schema (collectors/base_data_collector.py),
  * the Redis-backed upload queue (sharedUtils/upload_queue/redis_queue.py),
  * the ingestion server's write and read paths (server/app.py, server/models.py).

Modelling conventions:
  * Python floats are embedded as `PyFloat`: exact rationals plus the
    non-finite values NaN, +inf, -inf (no rounding is modelled; none of the
    checked properties depends on binary rounding).
  * JSON text is embedded as the inductive `Json` of parsed values; a JSON
    document travelling on the wire is represented by its parse.
  * Wall-clock instants are rationals (Unix seconds).
  * Redis structures are Lean lists: the head of a list models the LEFT end
    of a Redis list (LPUSH prepends, BRPOP pops the last element); the RETRY
    sorted set is a list of (member, score) pairs.
  * The SQL database is a record of row lists in insertion order.
-/

import Mathlib

set_option linter.unusedVariables false

/-- A Python float value: a finite rational, or one of the IEEE specials
`nan`, `inf`, `-inf` (which Python's `json` module parses from the literals
`NaN`, `Infinity`, `-Infinity`). -/
inductive PyFloat where
  | finite (q : ℚ)
  | nan
  | inf
  | ninf
deriving DecidableEq, Repr

/-- `true` iff the value is a finite double. -/
def PyFloat.isFinite : PyFloat → Bool
  | .finite _ => true
  | _ => false

/-- A parsed JSON value (the result of `json.loads` / `request.get_json`).
Numbers carry a `PyFloat` since Python's parser also accepts the non-finite
literals. -/
inductive Json where
  | null
  | bool (b : Bool)
  | num (v : PyFloat)
  | str (s : String)
  | arr (items : List Json)
  | obj (fields : List (String × Json))

namespace Json

/-- `d.get(k)` on a parsed JSON object: `none` when the key is absent.
Python's parser keeps the LAST occurrence of a duplicated key, hence the
reversed search. -/
def get (fields : List (String × Json)) (k : String) : Option Json :=
  (fields.reverse.find? (fun kv => kv.1 = k)).map (·.2)

/-- The key set of a JSON object, in order of first appearance. -/
def keys : Json → List String
  | .obj fields => (fields.map (·.1)).dedup
  | _ => []

/-- Python truthiness of an optional JSON value (`None`, `null`, `False`,
`0`, `""`, `[]` and `{}` are falsy). -/
def truthy : Option Json → Bool
  | none => false
  | some .null => false
  | some (.bool b) => b
  | some (.num (.finite q)) => q ≠ 0
  | some (.num _) => true
  | some (.str s) => s ≠ ""
  | some (.arr items) => !items.isEmpty
  | some (.obj fields) => !fields.isEmpty

/-- Python's `float(x)` applied to a parsed JSON value, as used by the
ingestion server on `metric_value`: numbers pass through, booleans widen to
0.0/1.0, everything else raises (`none`). (Coercion of numeric strings is
not exercised by any wire payload of this system and is not modelled.) -/
def toFloat : Json → Option PyFloat
  | .num v => some v
  | .bool b => some (.finite (if b then 1 else 0))
  | _ => none

/-- Extract a JSON string. -/
def asStr : Json → Option String
  | .str s => some s
  | _ => none

end Json

/- ----------------------------------------------------------------------
Collector metric schema — collectors/base_data_collector.py
---------------------------------------------------------------------- -/

namespace Collector

/-- `MetricEntry` (collectors/base_data_collector.py, lines 20-36): a
pydantic model with fields `metric_name : str`, `metric_value : float`,
`unit : str = ""`. -/
structure MetricEntry where
  metric_name : String
  metric_value : PyFloat
  unit : String := ""
deriving DecidableEq, Repr

/-- Constructing a `MetricEntry`. The source declares no custom validators,
so pydantic performs only type checking of the (already typed, here) inputs;
pydantic's default `allow_inf_nan=True` accepts NaN and infinities for
`float` fields. Construction therefore always succeeds on typed inputs. -/
def mkMetricEntry (name : String) (value : PyFloat) (unit : String) :
    Option MetricEntry :=
  some { metric_name := name, metric_value := value, unit := unit }

/-- `DataMessage` (collectors/base_data_collector.py, lines 39-45): the
object a collector hands to the upload queue. Fields in declaration order:
`message_id`, `timestamp`, `device_id`, `source`, `metrics`. -/
structure DataMessage where
  message_id : String
  timestamp : PyFloat
  device_id : String
  source : String
  metrics : List MetricEntry
deriving DecidableEq, Repr

/-- pydantic serialisation of one `MetricEntry` (field order = declaration
order). -/
def MetricEntry.toJson (m : MetricEntry) : Json :=
  .obj [("metric_name", .str m.metric_name),
        ("metric_value", .num m.metric_value),
        ("unit", .str m.unit)]

/-- `message.model_dump_json()` as called by `RedisUploadQueue.put`
(redis_queue.py line 204): the full pydantic dump of `DataMessage`, fields
in declaration order. -/
def DataMessage.modelDumpJson (m : DataMessage) : Json :=
  .obj [("message_id", .str m.message_id),
        ("timestamp", .num m.timestamp),
        ("device_id", .str m.device_id),
        ("source", .str m.source),
        ("metrics", .arr (m.metrics.map MetricEntry.toJson))]

end Collector

/- ----------------------------------------------------------------------
Upload queue — sharedUtils/upload_queue/redis_queue.py
---------------------------------------------------------------------- -/

namespace Queue

/-- The message envelope stored on Redis (redis_queue.py lines 13-21 and
200-205). `payload` is the serialised DataMessage (modelled by its parse). -/
structure Envelope where
  retry_count : ℕ
  first_queued_at : ℚ
  last_error : Option String
  payload : Json

/-- The retry-policy slice of `UploadQueueConfig`
(sharedUtils/config/models.py lines 80-101: all three are integers,
`max_retry_attempts ≥ 0` is validated). -/
structure QueueConfig where
  max_retry_attempts : ℕ
  backoff_base : ℕ
  backoff_multiplier : ℕ
deriving DecidableEq, Repr

/-- The queue's runtime state: whether `start()` has created a Redis client
(`redis_client is not None`), whether the broker currently answers
(`brokerUp`), and the three persisted structures. List heads model the left
end of the Redis lists. The RETRY sorted set is a list of (envelope, score)
pairs. -/
structure QueueState where
  connected : Bool
  brokerUp : Bool
  pending : List Envelope
  retry : List (Envelope × ℚ)
  failed : List Envelope

/-- `RedisUploadQueue.put` (redis_queue.py lines 181-219): returns `False`
when `redis_client` is `None` (queue never started) or when the LPUSH
raises a `RedisError` (broker unreachable); otherwise wraps the message in
a fresh envelope (`retry_count = 0`, `first_queued_at = now`,
`last_error = None`) and LPUSHes it onto PENDING. -/
def put (st : QueueState) (m : Collector.DataMessage) (now : ℚ) :
    Bool × QueueState :=
  if !st.connected then
    (false, st)
  else if !st.brokerUp then
    (false, st)
  else
    let env : Envelope :=
      { retry_count := 0
        first_queued_at := now
        last_error := none
        payload := m.modelDumpJson }
    (true, { st with pending := env :: st.pending })

/-- The outcome of one HTTP upload attempt (`_attempt_upload`,
redis_queue.py lines 368-415): an HTTP response with some status code, a
request timeout, or a connection error. -/
inductive UploadOutcome where
  | httpStatus (code : ℕ)
  | timeout
  | connectionError
deriving DecidableEq, Repr

/-- `_attempt_upload` treats exactly the 2xx statuses as success
(redis_queue.py line 394: `200 <= response.status_code < 300`); every other
status, a timeout, and a connection error are failures. -/
def uploadSucceeds : UploadOutcome → Bool
  | .httpStatus code => 200 ≤ code && code < 300
  | .timeout => false
  | .connectionError => false

/-- The error string `_attempt_upload` reports on failure (abridged to the
shape that reaches the envelope's `last_error`). -/
def outcomeError : UploadOutcome → String
  | .httpStatus code => "HTTP " ++ toString code
  | .timeout => "Request timed out"
  | .connectionError => "ConnectionError"

/-- The backoff delay computed on a failed attempt (redis_queue.py line
348): `backoff_base * backoff_multiplier ** (retry_count - 1)` where
`retry_count` is the already-incremented count. -/
def backoffDelay (cfg : QueueConfig) (retryCount : ℕ) : ℚ :=
  (cfg.backoff_base : ℚ) * (cfg.backoff_multiplier : ℚ) ^ (retryCount - 1)

/-- Where a popped envelope goes after one upload attempt. -/
inductive Route where
  | delivered
  | toRetry (env : Envelope) (score : ℚ)
  | toFailed (env : Envelope)

/-- The routing decision of `_process_pending_queue` after `_attempt_upload`
returns (redis_queue.py lines 328-356): success discards the envelope;
otherwise `retry_count` is incremented and `last_error` recorded, then the
envelope moves to FAILED when `retry_count >= max_retry_attempts` and is
otherwise scheduled in RETRY with score `now + delay`. The HTTP status code
plays no role beyond the 2xx success test. -/
def routeAfterAttempt (cfg : QueueConfig) (env : Envelope)
    (outcome : UploadOutcome) (now : ℚ) : Route :=
  if uploadSucceeds outcome then
    .delivered
  else
    let rc := env.retry_count + 1
    let env' := { env with retry_count := rc,
                           last_error := some (outcomeError outcome) }
    if cfg.max_retry_attempts ≤ rc then
      .toFailed env'
    else
      .toRetry env' (now + backoffDelay cfg rc)

/-- One iteration of `_process_pending_queue` (redis_queue.py lines
290-366) on a state whose broker is up: BRPOP takes the envelope at the
RIGHT end of PENDING (the last element of the list); if the queue is empty
nothing happens; otherwise the envelope is routed per `routeAfterAttempt`
(LPUSH to FAILED, or ZADD to RETRY). -/
def processPendingQueue (cfg : QueueConfig) (st : QueueState)
    (outcome : UploadOutcome) (now : ℚ) : QueueState :=
  match st.pending.getLast? with
  | none => st
  | some env =>
    let rest := st.pending.dropLast
    match routeAfterAttempt cfg env outcome now with
    | .delivered => { st with pending := rest }
    | .toRetry env' score =>
        { st with pending := rest, retry := (env', score) :: st.retry }
    | .toFailed env' =>
        { st with pending := rest, failed := env' :: st.failed }

end Queue

/- ----------------------------------------------------------------------
Ingestion server — server/app.py with the schema of server/models.py
---------------------------------------------------------------------- -/

namespace Server

/-- A row of `aggregators` (models.py lines 9-17): `aggregator_id` PK,
`name` UNIQUE NOT NULL. -/
structure AggRow where
  aggregator_id : String
  name : String
deriving DecidableEq, Repr

/-- A row of `devices` (models.py lines 20-37). -/
structure DeviceRow where
  device_id : String
  aggregator_id : String
  name : String
  source : String
deriving DecidableEq, Repr

/-- A row of `snapshots` (models.py lines 40-62): `snapshot_id` PK. -/
structure SnapRow where
  snapshot_id : String
  device_id : String
  collected_at : ℚ
  received_at : ℚ
deriving DecidableEq, Repr

/-- A row of `metrics` (models.py lines 65-80). The autoincrement
`metric_id` is modelled by list position. `metric_value` is a `PyFloat`:
the value as handed to the ORM (whether a given backend accepts a
non-finite double in a FLOAT column is backend behaviour, not modelled). -/
structure MetricRow where
  snapshot_id : String
  metric_name : String
  metric_value : PyFloat
  unit : String
deriving DecidableEq, Repr

/-- The relational store, each table in insertion order. -/
structure DB where
  aggregators : List AggRow := []
  devices : List DeviceRow := []
  snapshots : List SnapRow := []
  metrics : List MetricRow := []
deriving DecidableEq, Repr

/-- `true` iff the optional JSON value is the string `s` (how a string
column compares against a client-supplied JSON value; non-string values
never match a row here — no claim exercises SQL cross-type coercion). -/
def optIsStr : Option Json → String → Bool
  | some (.str t), s => t = s
  | _, _ => false

/-- A finite JSON number (what a NOT NULL FLOAT column accepts). -/
def Json.toFinite : Json → Option ℚ
  | .num (.finite q) => some q
  | _ => none

/-- Result of `POST /aggregators`: HTTP status, the `aggregator_id` of the
response body (when any), and the database after the request. -/
structure AggResult where
  status : ℕ
  aggregator_id : Option String
  db : DB
deriving DecidableEq, Repr

/-- `post_aggregators` (app.py lines 27-65). `body` is the parsed JSON
object (`none` models a missing/unparsable body). `freshId` is the
`uuid.uuid4()` drawn on the insert path. `concurrent` is the interleaving
oracle for the documented race (app.py lines 55-61): `some otherId` means
another request inserted and committed a row `(otherId, name)` for the same
name between this request's SELECT and its INSERT, so that the INSERT
violates UNIQUE(name) and raises `IntegrityError`; the handler then
re-queries in a fresh session and returns the existing row with 200.
`none` means no interfering commit. Non-string `name` values are routed to
the generic error path (unexercised; SQL cross-type coercion is not
modelled). -/
def postAggregators (db : DB) (body : Option (List (String × Json)))
    (freshId : String) (concurrent : Option String) : AggResult :=
  match body with
  | none => ⟨400, none, db⟩
  | some fields =>
    -- `if not data or "name" not in data` (an empty dict is falsy)
    if fields.isEmpty then ⟨400, none, db⟩
    else match Json.get fields "name" with
    | none => ⟨400, none, db⟩
    | some nameJson =>
      match db.aggregators.find? (fun a => optIsStr (some nameJson) a.name) with
      | some a => ⟨200, some a.aggregator_id, db⟩
      | none =>
        match nameJson.asStr with
        | none => ⟨500, none, db⟩
        | some name =>
          match concurrent with
          | none =>
            ⟨201, some freshId,
             { db with aggregators := db.aggregators ++ [⟨freshId, name⟩] }⟩
          | some otherId =>
            -- IntegrityError: the competing commit is what made our INSERT
            -- fail, so the store now also holds (otherId, name); our own
            -- insert was rolled back.
            let db' : DB :=
              { db with aggregators := db.aggregators ++ [⟨otherId, name⟩] }
            match db'.aggregators.find? (fun a => a.name = name) with
            | some a => ⟨200, some a.aggregator_id, db'⟩
            | none => ⟨500, none, db'⟩

/-- Result of `POST /api/metrics`: HTTP status and the database after the
request (unchanged on any non-2xx outcome — the transaction rolls back). -/
structure MetricsPostResult where
  status : ℕ
  db : DB
deriving DecidableEq, Repr

/-- One iteration of the metric-insertion loop of `post_metrics` (app.py
lines 156-162): each entry contributes a row with
`metric_name = entry.get("metric_name", "")`,
`metric_value = float(entry.get("metric_value", 0.0))`,
`unit = entry.get("unit", "")`. A non-object entry (`.get` raises) or a
value the column/coercion rejects aborts the transaction (`none`). -/
def metricRowOfEntry (sid : String) (entry : Json) : Option MetricRow :=
  match entry with
  | .obj kvs =>
    let nameJ := (Json.get kvs "metric_name").getD (.str "")
    let valJ := (Json.get kvs "metric_value").getD (.num (.finite 0))
    let unitJ := (Json.get kvs "unit").getD (.str "")
    match nameJ.asStr, valJ.toFloat, unitJ.asStr with
    | some n, some v, some u => some ⟨sid, n, v, u⟩
    | _, _, _ => none
  | _ => none

/-- `post_metrics` (app.py lines 110-177). `body` is the parsed JSON object
(`none` = missing/unparsable body), `now` is `time.time()` at ingestion.
Validation: 400 when the body is falsy or when
`all([snapshot_id, device_id, timestamp is not None])` fails (Python
truthiness: an empty-string id is also rejected); 404 for an unknown
device. The snapshot row is inserted and flushed: a duplicate
`snapshot_id` violates the primary key, raising `IntegrityError`, which the
generic `except Exception` handler turns into a 500 after rollback — there
is no duplicate-specific handling. On success all rows commit and the
response is 201. Values the schema cannot hold (non-string ids, non-finite
timestamps, non-array `metrics`) take the same generic 500 path. -/
def postMetrics (db : DB) (body : Option (List (String × Json))) (now : ℚ) :
    MetricsPostResult :=
  match body with
  | none => ⟨400, db⟩
  | some fields =>
    if fields.isEmpty then ⟨400, db⟩
    else
      let sid? := Json.get fields "snapshot_id"
      let did? := Json.get fields "device_id"
      let ts? := Json.get fields "timestamp"
      let metricsJ := (Json.get fields "metrics").getD (.arr [])
      if !(Json.truthy sid? && Json.truthy did? && ts?.isSome) then ⟨400, db⟩
      else
        match db.devices.find? (fun d => optIsStr did? d.device_id) with
        | none => ⟨404, db⟩
        | some dev =>
          match sid?.bind Json.asStr, ts?.bind Json.toFinite with
          | some sid, some ts =>
            if db.snapshots.any (fun s => s.snapshot_id = sid) then
              ⟨500, db⟩
            else
              match metricsJ with
              | .arr entries =>
                match entries.mapM (metricRowOfEntry sid) with
                | some rows =>
                  ⟨201,
                   { db with
                     snapshots := db.snapshots ++
                       [⟨sid, dev.device_id, ts, now⟩]
                     metrics := db.metrics ++ rows }⟩
                | none => ⟨500, db⟩
              | _ => ⟨500, db⟩
          | _, _ => ⟨500, db⟩

/-- One element of the `snapshots` array of a `GET /api/metrics` response
(app.py lines 216-233). -/
structure SnapOut where
  snapshot_id : String
  device_id : String
  source : String
  collected_at : ℚ
  received_at : ℚ
  metrics : List MetricRow
deriving DecidableEq, Repr

/-- Result of `GET /api/metrics`. -/
structure GetResult where
  status : ℕ
  snapshots : List SnapOut
deriving DecidableEq, Repr

/-- Serialise one snapshot row for the response, joining its device's
`source` and its metric rows. -/
def snapOut (db : DB) (s : SnapRow) : Option SnapOut :=
  (db.devices.find? (fun d => d.device_id = s.device_id)).map (fun d =>
    ⟨s.snapshot_id, s.device_id, d.source, s.collected_at, s.received_at,
     db.metrics.filter (fun m => m.snapshot_id = s.snapshot_id)⟩)

/-- Python truthiness of an optional query-string parameter (`if device_id:`
— an absent or empty parameter disables the filter). -/
def strTruthy : Option String → Bool
  | some s => s ≠ ""
  | none => false

/-- The comparison `ORDER BY collected_at ASC` sorts by. -/
def snapLe (a b : SnapRow) : Bool := a.collected_at ≤ b.collected_at

/-- `DEFAULT_QUERY_LIMIT` (app.py line 18). -/
def DEFAULT_QUERY_LIMIT : ℤ := 100

/-- The rows selected by `get_metrics` before ordering (app.py lines
204-211): the three optional WHERE clauses. `device_id` and `source`
filter only when the parameter is truthy (`if device_id:` — absent or
empty disables the filter); `since` is a strict lower bound on
`collected_at` whenever given. -/
def queryRows (db : DB) (deviceId? : Option String) (source? : Option String)
    (since? : Option ℚ) : List SnapRow :=
  let rows1 : List SnapRow :=
    if strTruthy deviceId? then
      db.snapshots.filter (fun s => s.device_id = deviceId?.getD "")
    else db.snapshots
  let rows2 : List SnapRow :=
    if strTruthy source? then
      rows1.filter (fun s => db.devices.any (fun d =>
        (d.device_id = s.device_id) && (d.source = source?.getD "")))
    else rows1
  match since? with
  | some t => rows2.filter (fun s => t < s.collected_at)
  | none => rows2

/-- The rows `get_metrics` serialises (app.py line 213): the filtered rows
ordered by `collected_at` ascending and truncated by SQL `LIMIT`. The
client's limit is used as given (default `DEFAULT_QUERY_LIMIT` when the
parameter is absent or unparsable) — no server-side cap is applied. -/
def limitedRows (db : DB) (deviceId? : Option String) (source? : Option String)
    (limit? : Option ℤ) (since? : Option ℚ) : List SnapRow :=
  ((queryRows db deviceId? source? since?).insertionSort
      (fun a b => snapLe a b)).take ((limit?.getD DEFAULT_QUERY_LIMIT).toNat)

/-- `get_metrics` (app.py lines 180-248). Inputs model the parsed query
string: `limit?` is the client's `limit` when present and parseable, else
`none` (Werkzeug substitutes the default on absence or parse failure);
`since?` likewise for `since`. A negative limit is rejected by the SQL
backend (generic 500 path), and a snapshot row whose device row is missing
makes the serialisation raise (500); otherwise the response is 200 with
the selected rows serialised in order. -/
def getMetrics (db : DB) (deviceId? : Option String) (source? : Option String)
    (limit? : Option ℤ) (since? : Option ℚ) : GetResult :=
  if limit?.getD DEFAULT_QUERY_LIMIT < 0 then ⟨500, []⟩
  else
    match (limitedRows db deviceId? source? limit? since?).mapM (snapOut db) with
    | some outs => ⟨200, outs⟩
    | none => ⟨500, []⟩

/-- `ORDER BY collected_at ASC` is total on rows. -/
instance : IsTotal SnapRow (fun a b => snapLe a b = true) :=
  ⟨fun a b => by
    simp only [snapLe, decide_eq_true_eq]
    exact le_total a.collected_at b.collected_at⟩

/-- `ORDER BY collected_at ASC` is transitive on rows. -/
instance : IsTrans SnapRow (fun a b => snapLe a b = true) :=
  ⟨fun a b c hab hbc => by
    simp only [snapLe, decide_eq_true_eq] at hab hbc ⊢
    exact le_trans hab hbc⟩

end Server

/- ----------------------------------------------------------------------
Helper lemmas
---------------------------------------------------------------------- -/

namespace Queue

/-- Unfolding one worker step when PENDING ends (on the Redis right, where
BRPOP pops) with a known envelope. -/
theorem processPendingQueue_eq (cfg : QueueConfig) (st : QueueState)
    (rest : List Envelope) (env : Envelope) (outcome : UploadOutcome) (now : ℚ)
    (hp : st.pending = rest ++ [env]) :
    processPendingQueue cfg st outcome now =
      match routeAfterAttempt cfg env outcome now with
      | .delivered => { st with pending := rest }
      | .toRetry e s => { st with pending := rest, retry := (e, s) :: st.retry }
      | .toFailed e => { st with pending := rest, failed := e :: st.failed } := by
  unfold processPendingQueue
  rw [hp, List.getLast?_concat, List.dropLast_concat]

/-- Routing after a failed attempt, in closed form. -/
theorem routeAfterAttempt_of_fail (cfg : QueueConfig) (env : Envelope)
    (outcome : UploadOutcome) (now : ℚ) (h : uploadSucceeds outcome = false) :
    routeAfterAttempt cfg env outcome now =
      if cfg.max_retry_attempts ≤ env.retry_count + 1 then
        .toFailed { env with retry_count := env.retry_count + 1,
                             last_error := some (outcomeError outcome) }
      else
        .toRetry { env with retry_count := env.retry_count + 1,
                            last_error := some (outcomeError outcome) }
          (now + backoffDelay cfg (env.retry_count + 1)) := by
  unfold routeAfterAttempt
  rw [h]
  simp

end Queue

/- ----------------------------------------------------------------------
Claim theorems
---------------------------------------------------------------------- -/

/-- C3 (counterexample): the claim is false on the code. An envelope whose
upload attempt returns HTTP 404 (a 4xx other than 408/429), popped with
`retry_count = 0` under `max_retry_attempts = 5`, is inserted into the
RETRY set — FAILED stays empty. `_attempt_upload` does not special-case
any status beyond the 2xx success test. -/
theorem C3_counterexample_404_goes_to_retry :
    (Queue.processPendingQueue ⟨5, 1, 2⟩
        ⟨true, true, [⟨0, 0, none, Json.null⟩], [], []⟩
        (.httpStatus 404) 100).failed = [] ∧
    (Queue.processPendingQueue ⟨5, 1, 2⟩
        ⟨true, true, [⟨0, 0, none, Json.null⟩], [], []⟩
        (.httpStatus 404) 100).retry =
      [(⟨1, 0, some (Queue.outcomeError (.httpStatus 404)), Json.null⟩,
        100 + Queue.backoffDelay ⟨5, 1, 2⟩ 1)] := by
  constructor <;> rfl

/-- C3 (amended): every upload failure is handled uniformly — for an HTTP
4xx response other than 408/429 the worker does NOT move the envelope
directly to FAILED; it schedules it in RETRY with the backoff score
whenever retries remain, and moves it to FAILED only when the incremented
`retry_count` reaches `max_retry_attempts`. -/
theorem C3_4xx_handled_like_any_failure (cfg : Queue.QueueConfig)
    (st : Queue.QueueState) (rest : List Queue.Envelope) (env : Queue.Envelope)
    (code : ℕ) (now : ℚ)
    (hp : st.pending = rest ++ [env])
    (h4xx : 400 ≤ code ∧ code < 500 ∧ code ≠ 408 ∧ code ≠ 429) :
    (env.retry_count + 1 < cfg.max_retry_attempts →
      (Queue.processPendingQueue cfg st (.httpStatus code) now).failed = st.failed ∧
      (Queue.processPendingQueue cfg st (.httpStatus code) now).retry =
        ({ env with retry_count := env.retry_count + 1,
                    last_error := some (Queue.outcomeError (.httpStatus code)) },
          now + Queue.backoffDelay cfg (env.retry_count + 1)) :: st.retry) ∧
    (cfg.max_retry_attempts ≤ env.retry_count + 1 →
      (Queue.processPendingQueue cfg st (.httpStatus code) now).retry = st.retry ∧
      (Queue.processPendingQueue cfg st (.httpStatus code) now).failed =
        { env with retry_count := env.retry_count + 1,
                   last_error := some (Queue.outcomeError (.httpStatus code)) }
          :: st.failed) := by
  have hfail : Queue.uploadSucceeds (.httpStatus code) = false := by
    simp only [Queue.uploadSucceeds, Bool.and_eq_false_iff, decide_eq_false_iff_not]
    omega
  rw [Queue.processPendingQueue_eq cfg st rest env _ now hp,
      Queue.routeAfterAttempt_of_fail cfg env _ now hfail]
  constructor
  · intro hlt
    rw [if_neg (by omega)]
    exact ⟨rfl, rfl⟩
  · intro hge
    rw [if_pos hge]
    exact ⟨rfl, rfl⟩

/-- C3 (witness for the amended theorem): concrete instantiation at HTTP
404, `max_retry_attempts = 5`, an envelope popped at `retry_count = 0`. -/
theorem C3_4xx_handled_like_any_failure_witness :
    ((0 : ℕ) + 1 < 5 →
      (Queue.processPendingQueue ⟨5, 1, 2⟩
          ⟨true, true, [⟨0, 0, none, Json.null⟩], [], []⟩
          (.httpStatus 404) 100).failed = [] ∧
      (Queue.processPendingQueue ⟨5, 1, 2⟩
          ⟨true, true, [⟨0, 0, none, Json.null⟩], [], []⟩
          (.httpStatus 404) 100).retry =
        ({ retry_count := 0 + 1, first_queued_at := 0,
           last_error := some (Queue.outcomeError (.httpStatus 404)),
           payload := Json.null },
          100 + Queue.backoffDelay ⟨5, 1, 2⟩ (0 + 1)) :: []) ∧
    ((5 : ℕ) ≤ 0 + 1 →
      (Queue.processPendingQueue ⟨5, 1, 2⟩
          ⟨true, true, [⟨0, 0, none, Json.null⟩], [], []⟩
          (.httpStatus 404) 100).retry = [] ∧
      (Queue.processPendingQueue ⟨5, 1, 2⟩
          ⟨true, true, [⟨0, 0, none, Json.null⟩], [], []⟩
          (.httpStatus 404) 100).failed =
        { retry_count := 0 + 1, first_queued_at := 0,
          last_error := some (Queue.outcomeError (.httpStatus 404)),
          payload := Json.null } :: []) :=
  C3_4xx_handled_like_any_failure ⟨5, 1, 2⟩
    ⟨true, true, [⟨0, 0, none, Json.null⟩], [], []⟩ [] ⟨0, 0, none, Json.null⟩
    404 100 rfl (by omega)

/-- C4: `retry_count` never exceeds `max_retry_attempts`. For any failed
attempt: an envelope can only enter RETRY with `retry_count` strictly below
the maximum; an envelope entering FAILED carries exactly the incremented
count (so at most the maximum when the popped count was below it); and in
particular an envelope popped with `retry_count = max_retry_attempts - 1`
whose attempt fails ends up in FAILED, not RETRY. -/
theorem C4_retry_count_bounded (cfg : Queue.QueueConfig)
    (st : Queue.QueueState) (rest : List Queue.Envelope) (env : Queue.Envelope)
    (outcome : Queue.UploadOutcome) (now : ℚ)
    (hp : st.pending = rest ++ [env])
    (hfail : Queue.uploadSucceeds outcome = false) :
    (∀ e s, Queue.routeAfterAttempt cfg env outcome now = .toRetry e s →
        e.retry_count < cfg.max_retry_attempts) ∧
    (∀ e, Queue.routeAfterAttempt cfg env outcome now = .toFailed e →
        e.retry_count = env.retry_count + 1) ∧
    (env.retry_count + 1 = cfg.max_retry_attempts →
      (Queue.processPendingQueue cfg st outcome now).retry = st.retry ∧
      (Queue.processPendingQueue cfg st outcome now).failed =
        { env with retry_count := env.retry_count + 1,
                   last_error := some (Queue.outcomeError outcome) }
          :: st.failed) := by
  rw [Queue.routeAfterAttempt_of_fail cfg env outcome now hfail]
  refine ⟨?_, ?_, ?_⟩
  · intro e s h
    by_cases hle : cfg.max_retry_attempts ≤ env.retry_count + 1
    · rw [if_pos hle] at h
      exact absurd h (by simp)
    · rw [if_neg hle] at h
      cases h
      change env.retry_count + 1 < _
      omega
  · intro e h
    by_cases hle : cfg.max_retry_attempts ≤ env.retry_count + 1
    · rw [if_pos hle] at h
      cases h
      rfl
    · rw [if_neg hle] at h
      exact absurd h (by simp)
  · intro hmax
    rw [Queue.processPendingQueue_eq cfg st rest env outcome now hp,
        Queue.routeAfterAttempt_of_fail cfg env outcome now hfail,
        if_pos (le_of_eq hmax.symm)]
    exact ⟨rfl, rfl⟩

/-- C4 (witness): `max_retry_attempts = 3`, an envelope popped at
`retry_count = 2` (the last permitted attempt) whose attempt times out:
it lands in FAILED with `retry_count = 3`, RETRY untouched. -/
theorem C4_retry_count_bounded_witness :
    (∀ e s, Queue.routeAfterAttempt ⟨3, 1, 2⟩ ⟨2, 0, none, Json.null⟩
        .timeout 50 = .toRetry e s → e.retry_count < 3) ∧
    (∀ e, Queue.routeAfterAttempt ⟨3, 1, 2⟩ ⟨2, 0, none, Json.null⟩
        .timeout 50 = .toFailed e → e.retry_count = 2 + 1) ∧
    ((2 : ℕ) + 1 = 3 →
      (Queue.processPendingQueue ⟨3, 1, 2⟩
          ⟨true, true, [⟨2, 0, none, Json.null⟩], [], []⟩ .timeout 50).retry = [] ∧
      (Queue.processPendingQueue ⟨3, 1, 2⟩
          ⟨true, true, [⟨2, 0, none, Json.null⟩], [], []⟩ .timeout 50).failed =
        { retry_count := 2 + 1, first_queued_at := 0,
          last_error := some (Queue.outcomeError .timeout),
          payload := Json.null } :: []) :=
  C4_retry_count_bounded ⟨3, 1, 2⟩
    ⟨true, true, [⟨2, 0, none, Json.null⟩], [], []⟩ [] ⟨2, 0, none, Json.null⟩
    .timeout 50 rfl rfl

/-- C5: a transiently failed attempt with retries remaining increments
`retry_count` and inserts the envelope into RETRY with score `now + delay`,
where `delay = backoff_base * backoff_multiplier ^ (retry_count - 1)` is
computed from the post-increment `retry_count`. -/
theorem C5_backoff_schedule (cfg : Queue.QueueConfig)
    (st : Queue.QueueState) (rest : List Queue.Envelope) (env : Queue.Envelope)
    (outcome : Queue.UploadOutcome) (now : ℚ)
    (hp : st.pending = rest ++ [env])
    (hfail : Queue.uploadSucceeds outcome = false)
    (hleft : env.retry_count + 1 < cfg.max_retry_attempts) :
    (Queue.processPendingQueue cfg st outcome now).retry =
      ({ env with retry_count := env.retry_count + 1,
                  last_error := some (Queue.outcomeError outcome) },
        now + (cfg.backoff_base : ℚ) *
          (cfg.backoff_multiplier : ℚ) ^ ((env.retry_count + 1) - 1))
        :: st.retry := by
  rw [Queue.processPendingQueue_eq cfg st rest env outcome now hp,
      Queue.routeAfterAttempt_of_fail cfg env outcome now hfail,
      if_neg (by omega)]
  rfl

/-- C5 (witness): `backoff_base = 2`, `backoff_multiplier = 3`,
`max_retry_attempts = 5`; an envelope popped at `retry_count = 1` fails on
HTTP 503 at `now = 10`: it is scheduled with score
`10 + 2 * 3 ^ (2 - 1) = 16` and `retry_count = 2`. -/
theorem C5_backoff_schedule_witness :
    (Queue.processPendingQueue ⟨5, 2, 3⟩
        ⟨true, true, [⟨1, 0, none, Json.null⟩], [], []⟩
        (.httpStatus 503) 10).retry =
      ({ retry_count := 1 + 1, first_queued_at := 0,
         last_error := some (Queue.outcomeError (.httpStatus 503)),
         payload := Json.null },
        10 + ((2 : ℕ) : ℚ) * ((3 : ℕ) : ℚ) ^ ((1 + 1) - 1)) :: [] :=
  C5_backoff_schedule ⟨5, 2, 3⟩
    ⟨true, true, [⟨1, 0, none, Json.null⟩], [], []⟩ [] ⟨1, 0, none, Json.null⟩
    (.httpStatus 503) 10 rfl rfl (by decide)

/-- C9 (counterexample): the claim is false on the code as stated. With the
broker perfectly reachable but the queue not yet started
(`redis_client is None`, redis_queue.py lines 194-196), `put` returns
false — so "returns false only if the broker is unreachable at enqueue
time" and "for every call made while the broker is reachable, put returns
true" both fail. -/
theorem C9_counterexample_put_false_before_start :
    (Queue.QueueState.mk false true [] [] []).brokerUp = true ∧
    (Queue.put ⟨false, true, [], [], []⟩
        ⟨"m1", .finite 1, "d1", "local", []⟩ 0).1 = false ∧
    (Queue.put ⟨false, true, [], [], []⟩
        ⟨"m1", .finite 1, "d1", "local", []⟩ 0).2.pending = [] := by
  exact ⟨rfl, rfl, rfl⟩

/-- C9 (amended): once the queue has been started (a Redis client exists),
`put` is non-blocking and returns false exactly when the broker is
unreachable at enqueue time; while the broker is reachable it returns true
and pushes a fresh envelope (`retry_count = 0`, payload = the serialised
message) onto the head of PENDING, leaving everything else unchanged. -/
theorem C9_put_started (st : Queue.QueueState) (m : Collector.DataMessage)
    (now : ℚ) (hconn : st.connected = true) :
    ((Queue.put st m now).1 = false ↔ st.brokerUp = false) ∧
    (st.brokerUp = true →
      Queue.put st m now =
        (true, { st with pending :=
          ⟨0, now, none, m.modelDumpJson⟩ :: st.pending })) := by
  unfold Queue.put
  rw [hconn]
  cases hup : st.brokerUp
  · simp
  · simp

/-- C9 (witness): a started queue with a reachable broker accepts a
concrete message. -/
theorem C9_put_started_witness :
    ((Queue.put ⟨true, true, [], [], []⟩
        ⟨"m1", .finite 1, "d1", "local", []⟩ 5).1 = false ↔
      (Queue.QueueState.mk true true [] [] []).brokerUp = false) ∧
    ((Queue.QueueState.mk true true [] [] []).brokerUp = true →
      Queue.put ⟨true, true, [], [], []⟩
          ⟨"m1", .finite 1, "d1", "local", []⟩ 5 =
        (true, { Queue.QueueState.mk true true [] [] [] with pending :=
          [⟨0, 5, none,
            (Collector.DataMessage.mk "m1" (.finite 1) "d1" "local" []).modelDumpJson⟩] })) :=
  C9_put_started ⟨true, true, [], [], []⟩ ⟨"m1", .finite 1, "d1", "local", []⟩ 5 rfl

/-- C6 (counterexample): the claim is false on the code. `MetricEntry`
construction succeeds on an empty name, a NaN value and a 51-character
unit simultaneously — no validation is performed
(collectors/base_data_collector.py declares no validators). -/
theorem C6_counterexample_no_construction_validation :
    Collector.mkMetricEntry "" PyFloat.nan (String.mk (List.replicate 51 'x')) =
      some { metric_name := "", metric_value := PyFloat.nan,
             unit := String.mk (List.replicate 51 'x') } ∧
    PyFloat.nan.isFinite = false ∧
    (String.mk (List.replicate 51 'x')).length = 51 := by
  exact ⟨rfl, rfl, rfl⟩

/-- C6 (amended): `MetricEntry` construction performs no content
validation: every name (including the empty string), every float value
(including NaN and the infinities) and every unit (of any length) is
accepted unchanged, and the accepted value is carried as-is into the
serialised wire entry. Finiteness of metric values is not enforced at
construction. -/
theorem C6_construction_accepts_everything (name : String) (value : PyFloat)
    (unit : String) :
    Collector.mkMetricEntry name value unit =
      some { metric_name := name, metric_value := value, unit := unit } ∧
    ({ metric_name := name, metric_value := value, unit := unit } :
        Collector.MetricEntry).toJson =
      Json.obj [("metric_name", .str name), ("metric_value", .num value),
                ("unit", .str unit)] :=
  ⟨rfl, rfl⟩

/-- C1: evaluation of the code at the failing input. Posting the same
snapshot body twice against a store with a registered device: the first
POST answers 201 and inserts one row; the second POST violates the
`snapshot_id` primary key at flush, the resulting `IntegrityError` is
swallowed by the generic `except Exception` handler (app.py lines
175-177), and the response is 500 — not the 2xx the claim requires. The
table still holds exactly one row for the id. -/
theorem C1_duplicate_snapshot_second_post_500 :
    (Server.postMetrics { devices := [⟨"d1", "a1", "local-system", "local"⟩] }
        (some [("snapshot_id", Json.str "s1"), ("device_id", Json.str "d1"),
               ("timestamp", Json.num (.finite 1)), ("metrics", Json.arr [])])
        2).status = 201 ∧
    (Server.postMetrics
        (Server.postMetrics { devices := [⟨"d1", "a1", "local-system", "local"⟩] }
          (some [("snapshot_id", Json.str "s1"), ("device_id", Json.str "d1"),
                 ("timestamp", Json.num (.finite 1)), ("metrics", Json.arr [])])
          2).db
        (some [("snapshot_id", Json.str "s1"), ("device_id", Json.str "d1"),
               ("timestamp", Json.num (.finite 1)), ("metrics", Json.arr [])])
        3).status = 500 ∧
    ((Server.postMetrics
        (Server.postMetrics { devices := [⟨"d1", "a1", "local-system", "local"⟩] }
          (some [("snapshot_id", Json.str "s1"), ("device_id", Json.str "d1"),
                 ("timestamp", Json.num (.finite 1)), ("metrics", Json.arr [])])
          2).db
        (some [("snapshot_id", Json.str "s1"), ("device_id", Json.str "d1"),
               ("timestamp", Json.num (.finite 1)), ("metrics", Json.arr [])])
        3).db.snapshots.filter (fun s => s.snapshot_id = "s1")).length = 1 := by
  refine ⟨rfl, rfl, rfl⟩

/-- C2: the queue's wire payload does NOT match the Snapshot schema the
ingestion server expects. For every `DataMessage`, the body the worker
POSTs (the `model_dump_json` payload stored by `put`) carries exactly the
fields `message_id`, `timestamp`, `device_id`, `source`, `metrics` — not
the claimed `snapshot_id`, `device_id`, `timestamp`, `metrics` — and the
ingestion server's `post_metrics` therefore rejects every such payload
with 400 (missing required field `snapshot_id`), leaving the store
unchanged. -/
theorem C2_wire_payload_schema_mismatch (m : Collector.DataMessage)
    (db : Server.DB) (now : ℚ) :
    m.modelDumpJson = Json.obj
      [("message_id", .str m.message_id),
       ("timestamp", .num m.timestamp),
       ("device_id", .str m.device_id),
       ("source", .str m.source),
       ("metrics", .arr (m.metrics.map Collector.MetricEntry.toJson))] ∧
    Json.keys m.modelDumpJson =
      ["message_id", "timestamp", "device_id", "source", "metrics"] ∧
    Json.keys m.modelDumpJson ≠
      ["snapshot_id", "device_id", "timestamp", "metrics"] ∧
    Server.postMetrics db
      (some [("message_id", .str m.message_id),
             ("timestamp", .num m.timestamp),
             ("device_id", .str m.device_id),
             ("source", .str m.source),
             ("metrics", .arr (m.metrics.map Collector.MetricEntry.toJson))])
      now = ⟨400, db⟩ := by
  have hk : Json.keys m.modelDumpJson =
      ["message_id", "timestamp", "device_id", "source", "metrics"] := rfl
  refine ⟨rfl, hk, ?_, rfl⟩
  rw [hk]
  decide

/-- C8: `POST /aggregators` is idempotent by name and race-safe. On a store
with no aggregator of name `n`: a first registration answers 201 with the
fresh id and leaves exactly one row for `n`; a second (sequential)
registration answers 200 with the same id and does not change the store;
and a raced loser — whose SELECT preceded the winner's commit, so its
INSERT hits the UNIQUE(name) `IntegrityError` — answers 200 with the
winner's id over the same single-row store, so both concurrent callers
receive the same `aggregator_id`. -/
theorem C8_aggregator_registration_idempotent (db : Server.DB)
    (n idA idB : String) (hfresh : ∀ a ∈ db.aggregators, a.name ≠ n) :
    (Server.postAggregators db (some [("name", Json.str n)]) idA none).status = 201 ∧
    (Server.postAggregators db (some [("name", Json.str n)]) idA none).aggregator_id
      = some idA ∧
    (Server.postAggregators db (some [("name", Json.str n)]) idA none).db.aggregators
      = db.aggregators ++ [⟨idA, n⟩] ∧
    (((Server.postAggregators db (some [("name", Json.str n)]) idA none).db.aggregators.filter
        (fun a => a.name = n)).length = 1) ∧
    (Server.postAggregators
        (Server.postAggregators db (some [("name", Json.str n)]) idA none).db
        (some [("name", Json.str n)]) idB none)
      = ⟨200, some idA,
          (Server.postAggregators db (some [("name", Json.str n)]) idA none).db⟩ ∧
    (Server.postAggregators db (some [("name", Json.str n)]) idB (some idA))
      = ⟨200, some idA,
          (Server.postAggregators db (some [("name", Json.str n)]) idA none).db⟩ := by
  have hnone : db.aggregators.find?
      (fun a => Server.optIsStr (some (Json.str n)) a.name) = none := by
    rw [List.find?_eq_none]
    intro a ha
    simp only [Server.optIsStr, decide_eq_true_eq]
    exact fun h => hfresh a ha h.symm
  have hnone' : db.aggregators.find? (fun a => a.name = n) = none := by
    rw [List.find?_eq_none]
    intro a ha
    simp only [decide_eq_true_eq]
    exact hfresh a ha
  have hfind1 : (db.aggregators ++ [(⟨idA, n⟩ : Server.AggRow)]).find?
      (fun a => Server.optIsStr (some (Json.str n)) a.name) = some ⟨idA, n⟩ := by
    rw [List.find?_append, hnone]
    simp [List.find?, Server.optIsStr]
  have hfind2 : (db.aggregators ++ [(⟨idA, n⟩ : Server.AggRow)]).find?
      (fun a => a.name = n) = some ⟨idA, n⟩ := by
    rw [List.find?_append, hnone']
    simp [List.find?]
  have e1 : Server.postAggregators db (some [("name", Json.str n)]) idA none
      = ⟨201, some idA,
          { db with aggregators := db.aggregators ++ [⟨idA, n⟩] }⟩ := by
    have step : Server.postAggregators db (some [("name", Json.str n)]) idA none
        = (match db.aggregators.find?
              (fun a => Server.optIsStr (some (Json.str n)) a.name) with
           | some a => (⟨200, some a.aggregator_id, db⟩ : Server.AggResult)
           | none => ⟨201, some idA,
               { db with aggregators := db.aggregators ++ [⟨idA, n⟩] }⟩) := rfl
    rw [step, hnone]
  have e2 : Server.postAggregators
      { db with aggregators := db.aggregators ++ [⟨idA, n⟩] }
      (some [("name", Json.str n)]) idB none
      = ⟨200, some idA, { db with aggregators := db.aggregators ++ [⟨idA, n⟩] }⟩ := by
    have step : Server.postAggregators
        { db with aggregators := db.aggregators ++ [⟨idA, n⟩] }
        (some [("name", Json.str n)]) idB none
        = (match (db.aggregators ++ [(⟨idA, n⟩ : Server.AggRow)]).find?
              (fun a => Server.optIsStr (some (Json.str n)) a.name) with
           | some a => (⟨200, some a.aggregator_id,
               { db with aggregators := db.aggregators ++ [⟨idA, n⟩] }⟩ : Server.AggResult)
           | none => ⟨201, some idB,
               { db with aggregators := (db.aggregators ++ [⟨idA, n⟩]) ++ [⟨idB, n⟩] }⟩) := rfl
    rw [step, hfind1]
  have e3 : Server.postAggregators db (some [("name", Json.str n)]) idB (some idA)
      = ⟨200, some idA, { db with aggregators := db.aggregators ++ [⟨idA, n⟩] }⟩ := by
    have step : Server.postAggregators db (some [("name", Json.str n)]) idB (some idA)
        = (match db.aggregators.find?
              (fun a => Server.optIsStr (some (Json.str n)) a.name) with
           | some a => (⟨200, some a.aggregator_id, db⟩ : Server.AggResult)
           | none =>
             (match (db.aggregators ++ [(⟨idA, n⟩ : Server.AggRow)]).find?
                 (fun a => a.name = n) with
              | some a => ⟨200, some a.aggregator_id,
                  { db with aggregators := db.aggregators ++ [⟨idA, n⟩] }⟩
              | none => ⟨500, none,
                  { db with aggregators := db.aggregators ++ [⟨idA, n⟩] }⟩)) := rfl
    rw [step, hnone, hfind2]
  have hfil : (db.aggregators ++ [(⟨idA, n⟩ : Server.AggRow)]).filter
      (fun a => a.name = n) = [⟨idA, n⟩] := by
    rw [List.filter_append]
    rw [List.filter_eq_nil_iff.mpr (by
      intro a ha
      simp only [decide_eq_true_eq]
      exact hfresh a ha)]
    simp
  rw [e1]
  refine ⟨rfl, rfl, rfl, ?_, ?_, ?_⟩
  · rw [show ({ db with aggregators := db.aggregators ++ [⟨idA, n⟩] } :
        Server.DB).aggregators = db.aggregators ++ [⟨idA, n⟩] from rfl, hfil]
    rfl
  · rw [e2]
  · rw [e3]

/-- C8 (witness): concrete run on an empty store — first call 201 with a
fresh id, second call 200 with the same id, raced loser 200 with the
winner's id, one row throughout. -/
theorem C8_aggregator_registration_idempotent_witness :
    (Server.postAggregators {} (some [("name", Json.str "edge-1")]) "u1" none).status = 201 ∧
    (Server.postAggregators {} (some [("name", Json.str "edge-1")]) "u1" none).aggregator_id
      = some "u1" ∧
    (Server.postAggregators {} (some [("name", Json.str "edge-1")]) "u1" none).db.aggregators
      = [] ++ [⟨"u1", "edge-1"⟩] ∧
    (((Server.postAggregators {} (some [("name", Json.str "edge-1")]) "u1" none).db.aggregators.filter
        (fun a => a.name = "edge-1")).length = 1) ∧
    (Server.postAggregators
        (Server.postAggregators {} (some [("name", Json.str "edge-1")]) "u1" none).db
        (some [("name", Json.str "edge-1")]) "u2" none)
      = ⟨200, some "u1",
          (Server.postAggregators {} (some [("name", Json.str "edge-1")]) "u1" none).db⟩ ∧
    (Server.postAggregators {} (some [("name", Json.str "edge-1")]) "u2" (some "u1"))
      = ⟨200, some "u1",
          (Server.postAggregators {} (some [("name", Json.str "edge-1")]) "u1" none).db⟩ :=
  C8_aggregator_registration_idempotent {} "edge-1" "u1" "u2"
    (by intro a ha; cases ha)

/-- C10: an accepted `POST /api/metrics` (truthy `snapshot_id` and
`device_id`, a timestamp, a known device, a fresh snapshot id) does not
reject a metric entry that omits `metric_name`, `metric_value` or `unit`:
the missing fields default to `""`, `0.0` and `""` respectively, the row is
stored with those defaults, and the response is 201. The entry below
carries each of the three fields only when the corresponding `Option`
argument is `some`. -/
theorem C10_missing_metric_fields_defaulted (db : Server.DB)
    (dev : Server.DeviceRow) (sid did : String) (ts now : ℚ)
    (name? unit? : Option String) (val? : Option PyFloat)
    (hsid : sid ≠ "") (hdid : did ≠ "")
    (hdev : db.devices.find?
      (fun d => Server.optIsStr (some (Json.str did)) d.device_id) = some dev)
    (hdup : ∀ s ∈ db.snapshots, s.snapshot_id ≠ sid) :
    Server.postMetrics db
      (some [("snapshot_id", Json.str sid), ("device_id", Json.str did),
             ("timestamp", Json.num (.finite ts)),
             ("metrics", Json.arr [Json.obj
               ((name?.map (fun v => ("metric_name", Json.str v))).toList ++
                (val?.map (fun v => ("metric_value", Json.num v))).toList ++
                (unit?.map (fun v => ("unit", Json.str v))).toList)])])
      now
    = ⟨201, { db with
        snapshots := db.snapshots ++ [⟨sid, dev.device_id, ts, now⟩],
        metrics := db.metrics ++
          [⟨sid, name?.getD "", val?.getD (.finite 0), unit?.getD ""⟩] }⟩ := by
  have h1 : Json.truthy (some (Json.str sid)) = true := by
    simp [Json.truthy, hsid]
  have h2 : Json.truthy (some (Json.str did)) = true := by
    simp [Json.truthy, hdid]
  have hany : db.snapshots.any (fun s => s.snapshot_id = sid) = false := by
    rw [List.any_eq_false]
    intro s hs
    simpa using hdup s hs
  have hrow : Server.metricRowOfEntry sid
      (Json.obj ((name?.map (fun v => ("metric_name", Json.str v))).toList ++
                 (val?.map (fun v => ("metric_value", Json.num v))).toList ++
                 (unit?.map (fun v => ("unit", Json.str v))).toList))
      = some ⟨sid, name?.getD "", val?.getD (.finite 0), unit?.getD ""⟩ := by
    cases name? <;> cases val? <;> cases unit? <;>
      simp [Server.metricRowOfEntry, Json.get, List.find?, Json.asStr, Json.toFloat]
  have hmapM : [Json.obj ((name?.map (fun v => ("metric_name", Json.str v))).toList ++
                 (val?.map (fun v => ("metric_value", Json.num v))).toList ++
                 (unit?.map (fun v => ("unit", Json.str v))).toList)].mapM
      (Server.metricRowOfEntry sid)
      = some [⟨sid, name?.getD "", val?.getD (.finite 0), unit?.getD ""⟩] := by
    rw [List.mapM_cons, List.mapM_nil, hrow]
    rfl
  have step : Server.postMetrics db
      (some [("snapshot_id", Json.str sid), ("device_id", Json.str did),
             ("timestamp", Json.num (.finite ts)),
             ("metrics", Json.arr [Json.obj
               ((name?.map (fun v => ("metric_name", Json.str v))).toList ++
                (val?.map (fun v => ("metric_value", Json.num v))).toList ++
                (unit?.map (fun v => ("unit", Json.str v))).toList)])])
      now
      = (if !(Json.truthy (some (Json.str sid)) && Json.truthy (some (Json.str did))
              && (some (Json.num (PyFloat.finite ts))).isSome) then
          (⟨400, db⟩ : Server.MetricsPostResult)
         else
          match db.devices.find?
              (fun d => Server.optIsStr (some (Json.str did)) d.device_id) with
          | none => ⟨404, db⟩
          | some dv =>
            if db.snapshots.any (fun s => s.snapshot_id = sid) then ⟨500, db⟩
            else
              match [Json.obj
                  ((name?.map (fun v => ("metric_name", Json.str v))).toList ++
                   (val?.map (fun v => ("metric_value", Json.num v))).toList ++
                   (unit?.map (fun v => ("unit", Json.str v))).toList)].mapM
                  (Server.metricRowOfEntry sid) with
              | some rows =>
                ⟨201, { db with
                  snapshots := db.snapshots ++ [⟨sid, dv.device_id, ts, now⟩]
                  metrics := db.metrics ++ rows }⟩
              | none => ⟨500, db⟩) := rfl
  rw [step, h1, h2, hdev, hany, hmapM]
  rfl

/-- C10 (witness): a metric entry `{}` omitting all three fields is stored
as `("", 0.0, "")` and the POST answers 201. -/
theorem C10_missing_metric_fields_defaulted_witness :
    Server.postMetrics { devices := [⟨"d1", "a1", "local-system", "local"⟩] }
      (some [("snapshot_id", Json.str "s1"), ("device_id", Json.str "d1"),
             ("timestamp", Json.num (.finite 1)),
             ("metrics", Json.arr [Json.obj
               (((none : Option String).map (fun v => ("metric_name", Json.str v))).toList ++
                ((none : Option PyFloat).map (fun v => ("metric_value", Json.num v))).toList ++
                ((none : Option String).map (fun v => ("unit", Json.str v))).toList)])])
      2
    = ⟨201,
        { devices := [⟨"d1", "a1", "local-system", "local"⟩],
          snapshots := [] ++ [⟨"s1", "d1", 1, 2⟩],
          metrics := [] ++ [⟨"s1", (none : Option String).getD "",
                             (none : Option PyFloat).getD (.finite 0),
                             (none : Option String).getD ""⟩] }⟩ :=
  C10_missing_metric_fields_defaulted
    { devices := [⟨"d1", "a1", "local-system", "local"⟩] }
    ⟨"d1", "a1", "local-system", "local"⟩ "s1" "d1" 1 2 none none none
    (by decide) (by decide) rfl (by simp)

/-- `List.mapM` over `Option` succeeds exactly pointwise. -/
theorem mapM_option_forall2 {α β : Type} (f : α → Option β) :
    ∀ (l : List α) (l' : List β), l.mapM f = some l' →
      List.Forall₂ (fun a b => f a = some b) l l' := by
  intro l
  induction l with
  | nil =>
    intro l' h
    rw [List.mapM_nil] at h
    cases h
    exact .nil
  | cons a t ih =>
    intro l' h
    rw [List.mapM_cons] at h
    cases hfa : f a with
    | none =>
      rw [hfa] at h
      simp at h
    | some b =>
      rw [hfa] at h
      cases hts : t.mapM f with
      | none =>
        rw [hts] at h
        simp at h
      | some bs =>
        rw [hts] at h
        simp only [Option.bind_eq_bind, Option.some_bind, pure,
          Option.some.injEq] at h
        rw [← h]
        exact .cons hfa (ih bs hts)

/-- Serialisation preserves the snapshot's `collected_at`. -/
theorem snapOut_collected_at (db : Server.DB) (s : Server.SnapRow)
    (o : Server.SnapOut) (h : Server.snapOut db s = some o) :
    o.collected_at = s.collected_at := by
  unfold Server.snapOut at h
  cases hf : db.devices.find? (fun d => d.device_id = s.device_id) with
  | none =>
    rw [hf] at h
    cases h
  | some d =>
    rw [hf] at h
    simp only [Option.map_some'] at h
    cases h
    rfl

/-- Pointwise serialisation preserves the `collected_at` sequence. -/
theorem forall2_snapOut_map_collected (db : Server.DB)
    {l : List Server.SnapRow} {l' : List Server.SnapOut}
    (h : List.Forall₂ (fun s o => Server.snapOut db s = some o) l l') :
    l'.map (fun o => o.collected_at) = l.map (fun s => s.collected_at) := by
  induction h with
  | nil => rfl
  | cons hso ht ih =>
    simp only [List.map_cons, ih, snapOut_collected_at _ _ _ hso]

/-- A row selected under a `since` filter satisfies the strict bound. -/
theorem mem_queryRows_since (db : Server.DB)
    (deviceId? source? : Option String) (t : ℚ) (s : Server.SnapRow)
    (h : s ∈ Server.queryRows db deviceId? source? (some t)) :
    t < s.collected_at := by
  unfold Server.queryRows at h
  simp only at h
  exact of_decide_eq_true (List.mem_filter.mp h).2

/-- C7 (amended): every `GET /api/metrics` response lists snapshots in
`collected_at`-ascending order, honours `since` as an exclusive lower
bound, returns at most `limit` rows where `limit` defaults to
`DEFAULT_QUERY_LIMIT = 100` when absent — but the client's `limit` is used
as given, with no server-side cap. -/
theorem C7_get_metrics_ordered_since_limited (db : Server.DB)
    (deviceId? source? : Option String) (limit? : Option ℤ) (since? : Option ℚ) :
    ((Server.getMetrics db deviceId? source? limit? since?).snapshots.map
        (fun o => o.collected_at)).Pairwise (fun x y => x ≤ y) ∧
    (∀ t, since? = some t →
      ∀ o ∈ (Server.getMetrics db deviceId? source? limit? since?).snapshots,
        t < o.collected_at) ∧
    (Server.getMetrics db deviceId? source? limit? since?).snapshots.length ≤
      (limit?.getD Server.DEFAULT_QUERY_LIMIT).toNat ∧
    (limit? = none →
      (Server.getMetrics db deviceId? source? limit? since?).snapshots.length
        ≤ 100) := by
  by_cases hneg : limit?.getD Server.DEFAULT_QUERY_LIMIT < 0
  · have hr : Server.getMetrics db deviceId? source? limit? since? = ⟨500, []⟩ := by
      unfold Server.getMetrics
      rw [if_pos hneg]
    rw [hr]
    exact ⟨by simp, by simp, by simp, by simp⟩
  · cases hm : (Server.limitedRows db deviceId? source? limit? since?).mapM
        (Server.snapOut db) with
    | none =>
      have hr : Server.getMetrics db deviceId? source? limit? since? = ⟨500, []⟩ := by
        unfold Server.getMetrics
        rw [if_neg hneg, hm]
      rw [hr]
      exact ⟨by simp, by simp, by simp, by simp⟩
    | some outs =>
      have hr : Server.getMetrics db deviceId? source? limit? since?
          = ⟨200, outs⟩ := by
        unfold Server.getMetrics
        rw [if_neg hneg, hm]
      rw [hr]
      have hfa := mapM_option_forall2 (Server.snapOut db) _ _ hm
      have hmap := forall2_snapOut_map_collected db hfa
      have hsorted : List.Pairwise (fun a b => Server.snapLe a b = true)
          (Server.limitedRows db deviceId? source? limit? since?) := by
        unfold Server.limitedRows
        exact List.Pairwise.sublist (List.take_sublist _ _)
          (List.sorted_insertionSort _ _)
      have hmem : ∀ s ∈ Server.limitedRows db deviceId? source? limit? since?,
          s ∈ Server.queryRows db deviceId? source? since? := by
        intro s hs
        unfold Server.limitedRows at hs
        exact ((List.perm_insertionSort _ _).mem_iff).mp
          ((List.take_sublist _ _).mem hs)
      have hlen : outs.length =
          (Server.limitedRows db deviceId? source? limit? since?).length := by
        have h1 := congrArg List.length hmap
        simpa using h1
      have hlen2 : outs.length ≤ (limit?.getD Server.DEFAULT_QUERY_LIMIT).toNat := by
        rw [hlen]
        unfold Server.limitedRows
        rw [List.length_take]
        exact min_le_left _ _
      refine ⟨?_, ?_, hlen2, ?_⟩
      · show (outs.map (fun o => o.collected_at)).Pairwise (fun x y => x ≤ y)
        rw [hmap, List.pairwise_map]
        exact hsorted.imp (fun h => by
          simpa [Server.snapLe] using h)
      · intro t hs o ho
        have h1 : o.collected_at ∈ outs.map (fun o => o.collected_at) :=
          List.mem_map_of_mem _ ho
        rw [hmap] at h1
        obtain ⟨s, hsmem, hseq⟩ := List.mem_map.mp h1
        rw [← hseq]
        exact mem_queryRows_since db deviceId? source? t s
          (by rw [← hs]; exact hmem s hsmem)
      · intro hnone
        have := hlen2
        rw [hnone] at this
        simpa using this

/-- C7 (witness for the amended theorem): concrete instantiation at a
one-device store with out-of-order `collected_at` values and a `since`
bound. -/
theorem C7_get_metrics_ordered_since_limited_witness :
    ((Server.getMetrics
        { devices := [⟨"d1", "a1", "local-system", "local"⟩],
          snapshots := [⟨"s10", "d1", 10, 0⟩, ⟨"s5", "d1", 5, 0⟩,
                        ⟨"s20", "d1", 20, 0⟩, ⟨"s15", "d1", 15, 0⟩] }
        none none none (some 1)).snapshots.map
        (fun o => o.collected_at)).Pairwise (fun x y => x ≤ y) ∧
    (∀ t, (some (1 : ℚ)) = some t →
      ∀ o ∈ (Server.getMetrics
        { devices := [⟨"d1", "a1", "local-system", "local"⟩],
          snapshots := [⟨"s10", "d1", 10, 0⟩, ⟨"s5", "d1", 5, 0⟩,
                        ⟨"s20", "d1", 20, 0⟩, ⟨"s15", "d1", 15, 0⟩] }
        none none none (some 1)).snapshots,
        t < o.collected_at) ∧
    (Server.getMetrics
        { devices := [⟨"d1", "a1", "local-system", "local"⟩],
          snapshots := [⟨"s10", "d1", 10, 0⟩, ⟨"s5", "d1", 5, 0⟩,
                        ⟨"s20", "d1", 20, 0⟩, ⟨"s15", "d1", 15, 0⟩] }
        none none none (some 1)).snapshots.length ≤
      ((none : Option ℤ).getD Server.DEFAULT_QUERY_LIMIT).toNat ∧
    ((none : Option ℤ) = none →
      (Server.getMetrics
        { devices := [⟨"d1", "a1", "local-system", "local"⟩],
          snapshots := [⟨"s10", "d1", 10, 0⟩, ⟨"s5", "d1", 5, 0⟩,
                        ⟨"s20", "d1", 20, 0⟩, ⟨"s15", "d1", 15, 0⟩] }
        none none none (some 1)).snapshots.length ≤ 100) :=
  C7_get_metrics_ordered_since_limited
    { devices := [⟨"d1", "a1", "local-system", "local"⟩],
      snapshots := [⟨"s10", "d1", 10, 0⟩, ⟨"s5", "d1", 5, 0⟩,
                    ⟨"s20", "d1", 20, 0⟩, ⟨"s15", "d1", 15, 0⟩] }
    none none none (some 1)

/-- C7 (counterexample): the "capped at a server-side maximum" part of the
claim is false on the code. With 101 stored snapshots and a client limit of
101, the server returns all 101 rows — exceeding the only server-side
constant `DEFAULT_QUERY_LIMIT = 100`, which serves purely as the default
and never caps a client-provided limit. -/
theorem C7_counterexample_limit_not_capped :
    (Server.getMetrics
        { devices := [⟨"d1", "a1", "local-system", "local"⟩],
          snapshots := (List.range 101).map
            (fun k => ⟨toString k, "d1", (k : ℚ), 0⟩) }
        none none (some 101) none).status = 200 ∧
    (Server.getMetrics
        { devices := [⟨"d1", "a1", "local-system", "local"⟩],
          snapshots := (List.range 101).map
            (fun k => ⟨toString k, "d1", (k : ℚ), 0⟩) }
        none none (some 101) none).snapshots.length = 101 ∧
    Server.DEFAULT_QUERY_LIMIT = 100 := by
  refine ⟨?_, ?_, rfl⟩ <;> decide
